import Mathlib

/-!
Shallow embedding of `src/watchwatch/server.js` (watchvandu): the room
directory, presence tracking, playback state machine and broadcast routing of
the synchronized watch server.

Modelling conventions:
* JavaScript values occurring in client payloads and in `VideoState` fields are
  modelled by `JVal`, with `JVal.undef` for `undefined` and `JVal.null` for
  `null`; JS truthiness is `JVal.truthy`.  Numbers are naturals (the claims
  involve only non-negative times and counters).
* The three room-keyed `Map`s (`rooms`, `roomVideoStates`, `roomUsers`) and the
  per-room presence `Map` are insertion-ordered association lists with the
  exact `Map.get` / `Map.set` / `Map.delete` / `Map.has` semantics.
* Room ids, user ids and socket ids are strings (the spec: "id (opaque string,
  client-supplied)"); an absent string field is modelled as `""` — both are
  falsy in JS and rejected identically by every validation in the file.
* `Date.now()` readings are naturals supplied as the arrival time of each
  event; the several `Date.now()` calls inside one handler are modelled as the
  single arrival instant of that event.
* Socket.io channel membership (`socket.join` / `socket.leave`, `io.to`,
  `socket.to`) is modelled by the `channels` map; `recipients` resolves an
  emit target to the list of connection ids that receive the payload.
* Extra client-supplied fields of a `video-action` payload (forwarded by the
  `{...data, timestamp: now}` spread) are carried in `VideoActionData.extras`.
-/

/-- A JavaScript runtime value, as far as the server inspects or stores one. -/
inductive JVal where
  | undef : JVal
  | null : JVal
  | num : Nat → JVal
  | str : String → JVal
  | bool : Bool → JVal
  | obj : List (String × JVal) → JVal
  | arr : List JVal → JVal

/-- A JavaScript object: an ordered list of own properties. -/
abbrev Obj := List (String × JVal)

/-- JS truthiness (`!v` is `!truthy v`).  `0`, `""`, `null`, `undefined` are
falsy; every object and array is truthy. -/
def JVal.truthy : JVal → Bool
  | .undef => false
  | .null => false
  | .num n => decide (n ≠ 0)
  | .str s => decide (s ≠ "")
  | .bool b => b
  | .obj _ => true
  | .arr _ => true

namespace alist

/-- `Map.get`: the value stored under key `k`, if any. -/
def get {α : Type _} (m : List (String × α)) (k : String) : Option α :=
  match m with
  | [] => none
  | p :: rest => if p.1 = k then some p.2 else get rest k

/-- `Map.set`: update in place if the key exists (keeping its position),
otherwise append — JS `Map` insertion-order semantics. -/
def set {α : Type _} (m : List (String × α)) (k : String) (v : α) :
    List (String × α) :=
  match m with
  | [] => [(k, v)]
  | p :: rest => if p.1 = k then (k, v) :: rest else p :: set rest k v

/-- `Map.delete`: remove the entry stored under `k`. -/
def del {α : Type _} (m : List (String × α)) (k : String) : List (String × α) :=
  match m with
  | [] => []
  | p :: rest => if p.1 = k then del rest k else p :: del rest k

/-- The `if (!map.has(k)) map.set(k, v)` idiom of `initializeRoom`. -/
def ensure {α : Type _} (m : List (String × α)) (k : String) (v : α) :
    List (String × α) :=
  if (get m k).isSome then m else set m k v

end alist

/-- Property lookup on an object literal; with duplicate keys (as produced by
an object spread) the later occurrence wins, as in JS.  A missing property
reads as `undefined`. -/
def Obj.getRev : List (String × JVal) → String → JVal
  | [], _ => .undef
  | p :: rest, k => if p.1 = k then p.2 else getRev rest k

/-- JS property read `o.k` (last occurrence wins, `undefined` when absent). -/
def Obj.get (o : Obj) (k : String) : JVal := Obj.getRev o.reverse k

/-- Whether the object has an own property named `k`. -/
def Obj.hasField (o : Obj) (k : String) : Bool := (o.map Prod.fst).contains k

/-- The per-room playback record stored in `roomVideoStates`. -/
structure VideoState where
  type : Option String
  videoId : JVal
  videoUrl : JVal
  currentTime : JVal
  isPlaying : Bool
  lastUpdated : Option Nat
  lastUpdatedBy : Option String

/-- The record stored in `rooms`; its inner `users` map is created empty and
never touched again by the server. -/
structure Room where
  id : String
  createdAt : Nat
  users : List (String × Obj)

/-- The `socket.data` recorded at join time (`roomId`, `user`). -/
structure SocketData where
  roomId : Option String
  user : Option Obj

/-- The whole in-memory server state: the three room-keyed maps, the
per-socket `socket.data`, and socket.io channel membership. -/
structure ServerState where
  rooms : List (String × Room)
  roomVideoStates : List (String × VideoState)
  roomUsers : List (String × List (String × Obj))
  sockets : List (String × SocketData)
  channels : List (String × List String)

/-- The fresh `VideoState` installed by `initializeRoom`. -/
def initialVideoState : VideoState :=
  { type := none, videoId := .null, videoUrl := .null, currentTime := .num 0,
    isPlaying := false, lastUpdated := none, lastUpdatedBy := none }

/-- `initializeRoom(roomId)`: create each of the three per-room structures
that is not already present. -/
def initializeRoom (st : ServerState) (roomId : String) (now : Nat) :
    ServerState :=
  { st with
    rooms := alist.ensure st.rooms roomId
      { id := roomId, createdAt := now, users := [] },
    roomVideoStates := alist.ensure st.roomVideoStates roomId initialVideoState,
    roomUsers := alist.ensure st.roomUsers roomId [] }

/-- An emit target: `socket.emit` (sender only), `io.to(room)` (the whole
channel) or `socket.to(room)` (the channel minus the sender). -/
inductive Target where
  | sender : Target
  | roomAll : String → Target
  | roomOthers : String → Target

/-- One emitted event: target, event name, payload object. -/
structure Output where
  target : Target
  event : String
  payload : Obj

/-- `socket.emit('error', { message })`. -/
def errOut (msg : String) : Output :=
  { target := .sender, event := "error", payload := [("message", .str msg)] }

/-- The socket ids currently joined to a socket.io channel. -/
def channelMembers (st : ServerState) (roomId : String) : List String :=
  (alist.get st.channels roomId).getD []

/-- `socket.join(roomId)` — idempotent. -/
def channelJoin (ch : List (String × List String)) (roomId sid : String) :
    List (String × List String) :=
  let members := (alist.get ch roomId).getD []
  if members.contains sid then ch else alist.set ch roomId (members ++ [sid])

/-- `socket.leave(roomId)`. -/
def channelLeave (ch : List (String × List String)) (roomId sid : String) :
    List (String × List String) :=
  match alist.get ch roomId with
  | none => ch
  | some members => alist.set ch roomId (members.filter (fun m => m != sid))

/-- The connection ids that receive an emit, resolved against the state in
force when the emit happens. -/
def recipients (st : ServerState) (sender : String) : Target → List String
  | .sender => [sender]
  | .roomAll r => channelMembers st r
  | .roomOthers r => (channelMembers st r).filter (fun m => m != sender)

/-- Serialize a `VideoState` for the `room-joined` payload. -/
def VideoState.toJVal (vs : VideoState) : JVal :=
  .obj [("type", match vs.type with | some s => .str s | none => .null),
        ("videoId", vs.videoId), ("videoUrl", vs.videoUrl),
        ("currentTime", vs.currentTime), ("isPlaying", .bool vs.isPlaying),
        ("lastUpdated", match vs.lastUpdated with
                        | some t => .num t
                        | none => .null),
        ("lastUpdatedBy", match vs.lastUpdatedBy with
                          | some u => .str u
                          | none => .null)]

/-- The `join-room` handler.  `user` is the client-supplied user object
(`none` when absent/falsy). -/
def handleJoinRoom (st : ServerState) (sid : String) (now : Nat)
    (user : Option Obj) (roomId : String) : ServerState × List Output :=
  if user.isNone ∨ roomId = "" then
    (st, [errOut "Invalid join data"])
  else
    let u0 := user.getD []
    let st1 := initializeRoom st roomId now
    let u := alist.set u0 "socketId" (.str sid)
    let pres := alist.set ((alist.get st1.roomUsers roomId).getD []) sid u
    let st2 := { st1 with
      roomUsers := alist.set st1.roomUsers roomId pres,
      channels := channelJoin st1.channels roomId sid,
      sockets := alist.set st1.sockets sid
        { roomId := some roomId, user := some u } }
    let cvs : JVal := match alist.get st2.roomVideoStates roomId with
      | some vs => vs.toJVal
      | none => .undef
    let usersInRoom := pres.map Prod.snd
    (st2,
     [{ target := .sender, event := "room-joined",
        payload := [("roomId", .str roomId),
                    ("userCount", .num usersInRoom.length),
                    ("currentVideoState", cvs),
                    ("users", .arr (usersInRoom.map .obj))] },
      { target := .roomOthers roomId, event := "user-joined",
        payload := [("user", .obj u),
                    ("userCount", .num usersInRoom.length),
                    ("users", .arr (usersInRoom.map .obj))] }])

/-- The destructured fields of a `video-load` payload. -/
structure VideoLoadData where
  roomId : String
  type : String
  videoId : JVal
  videoUrl : JVal
  userId : String

/-- The `video-load` handler. -/
def handleVideoLoad (st : ServerState) (sid : String) (now : Nat)
    (d : VideoLoadData) : ServerState × List Output :=
  if d.roomId = "" ∨ d.userId = "" ∨ d.type = "" then
    (st, [errOut "Invalid video load data"])
  else
    let st1 := initializeRoom st d.roomId now
    let vs : VideoState :=
      { type := some d.type, videoId := d.videoId, videoUrl := d.videoUrl,
        currentTime := .num 0, isPlaying := false,
        lastUpdated := some now, lastUpdatedBy := some d.userId }
    ({ st1 with roomVideoStates := alist.set st1.roomVideoStates d.roomId vs },
     [{ target := .roomAll d.roomId, event := "video-load",
        payload := [("type", .str d.type), ("videoId", d.videoId),
                    ("videoUrl", d.videoUrl), ("userId", .str d.userId),
                    ("timestamp", .num now)] }])

/-- A `video-action` payload: the four destructured fields plus any further
client-supplied fields (forwarded by the spread in the broadcast). -/
structure VideoActionData where
  roomId : String
  action : String
  time : JVal
  userId : String
  extras : Obj

/-- The object `{...data}` rebuilt for the broadcast spread. -/
def VideoActionData.toObj (d : VideoActionData) : Obj :=
  [("roomId", .str d.roomId), ("action", .str d.action),
   ("time", d.time), ("userId", .str d.userId)] ++ d.extras

/-- The debounce test `currentState.lastUpdated && now - currentState.lastUpdated < 300`.
`lastUpdated` must be truthy (non-null and non-zero); JS subtraction can be
negative, in which case the `< 300` test also passes — matched here by `Nat`
truncated subtraction evaluating to `0`. -/
def debounced (cs : VideoState) (now : Nat) : Bool :=
  match cs.lastUpdated with
  | none => false
  | some t => decide (t ≠ 0) && decide (now - t < 300)

/-- The `switch (action)` of the `video-action` handler.  `time || prior`
keeps the prior position whenever `time` is falsy (absent, `0`, ...). -/
def applyAction (cs : VideoState) (action : String) (time : JVal) : VideoState :=
  if action = "play" then
    { cs with currentTime := if time.truthy then time else cs.currentTime,
              isPlaying := true }
  else if action = "pause" then
    { cs with currentTime := if time.truthy then time else cs.currentTime,
              isPlaying := false }
  else if action = "seek" then
    { cs with currentTime := time }
  else if action = "restart" then
    { cs with currentTime := .num 0, isPlaying := true }
  else cs

/-- The `video-action` handler. -/
def handleVideoAction (st : ServerState) (sid : String) (now : Nat)
    (d : VideoActionData) : ServerState × List Output :=
  if d.roomId = "" ∨ d.userId = "" then
    (st, [errOut "Invalid video action data"])
  else
    match alist.get st.roomVideoStates d.roomId with
    | none => (st, [errOut "Room not found"])
    | some currentState =>
      if debounced currentState now then
        (st, [])
      else
        let cs1 := applyAction currentState d.action d.time
        let cs2 := { cs1 with lastUpdated := some now,
                              lastUpdatedBy := some d.userId }
        ({ st with roomVideoStates :=
             alist.set st.roomVideoStates d.roomId cs2 },
         [{ target := .roomOthers d.roomId, event := "video-action",
            payload := d.toObj ++ [("timestamp", .num now)] }])

/-- The `chat-message` handler. -/
def handleChatMessage (st : ServerState) (sid : String) (now : Nat)
    (roomId : String) (user : Option Obj) (message : String) :
    ServerState × List Output :=
  if roomId = "" ∨ user.isNone ∨ message = "" then
    (st, [errOut "Invalid chat message"])
  else
    (st, [{ target := .roomAll roomId, event := "chat-message",
            payload := [("user", .obj (user.getD [])),
                        ("message", .str message),
                        ("timestamp", .num now)] }])

/-- The `offer` signaling handler: verbatim forward tagged with the sender. -/
def handleOffer (st : ServerState) (sid : String) (roomId : String)
    (payload : JVal) : ServerState × List Output :=
  (st, [{ target := .roomOthers roomId, event := "offer",
          payload := [("offer", payload), ("from", .str sid)] }])

/-- The `answer` signaling handler. -/
def handleAnswer (st : ServerState) (sid : String) (roomId : String)
    (payload : JVal) : ServerState × List Output :=
  (st, [{ target := .roomOthers roomId, event := "answer",
          payload := [("answer", payload), ("from", .str sid)] }])

/-- The `ice-candidate` signaling handler. -/
def handleIceCandidate (st : ServerState) (sid : String) (roomId : String)
    (payload : JVal) : ServerState × List Output :=
  (st, [{ target := .roomOthers roomId, event := "ice-candidate",
          payload := [("candidate", payload), ("from", .str sid)] }])

/-- The `leave-room` handler. -/
def handleLeaveRoom (st : ServerState) (sid : String)
    (userId roomId : String) : ServerState × List Output :=
  if roomId = "" ∨ userId = "" then
    (st, [errOut "Invalid leave room data"])
  else
    match alist.get st.roomUsers roomId with
    | none =>
        ({ st with channels := channelLeave st.channels roomId sid }, [])
    | some users =>
        let user := alist.get users sid
        let remainingMap := alist.del users sid
        let remainingUsers := remainingMap.map Prod.snd
        let uname : JVal := match user with
          | some u =>
              if (Obj.get u "name").truthy then Obj.get u "name"
              else .str "Unknown"
          | none => .str "Unknown"
        let st1 := { st with
          roomUsers := alist.set st.roomUsers roomId remainingMap }
        let st2 := if remainingUsers.length = 0 then
            { st1 with rooms := alist.del st1.rooms roomId,
                       roomVideoStates := alist.del st1.roomVideoStates roomId,
                       roomUsers := alist.del st1.roomUsers roomId }
          else st1
        ({ st2 with channels := channelLeave st2.channels roomId sid },
         [{ target := .roomOthers roomId, event := "user-left",
            payload := [("userName", uname),
                        ("userCount", .num remainingUsers.length),
                        ("users", .arr (remainingUsers.map .obj))] }])

/-- The transport `disconnect` handler.  Socket.io has already removed the
socket from every channel when the handler runs. -/
def handleDisconnect (st : ServerState) (sid : String) :
    ServerState × List Output :=
  let st0 := { st with
    channels := st.channels.map
      (fun (p : String × List String) => (p.1, p.2.filter (fun m => m != sid))) }
  let sd := (alist.get st0.sockets sid).getD { roomId := none, user := none }
  match sd.roomId, sd.user with
  | some roomId, some user =>
      (match alist.get st0.roomUsers roomId with
       | none => (st0, [])
       | some users =>
          let remainingMap := alist.del users sid
          let remainingUsers := remainingMap.map Prod.snd
          let st1 := { st0 with
            roomUsers := alist.set st0.roomUsers roomId remainingMap }
          let st2 := if remainingUsers.length = 0 then
              { st1 with rooms := alist.del st1.rooms roomId,
                         roomVideoStates := alist.del st1.roomVideoStates roomId,
                         roomUsers := alist.del st1.roomUsers roomId }
            else st1
          (st2, [{ target := .roomOthers roomId, event := "user-left",
                   payload := [("userName", Obj.get user "name"),
                               ("userCount", .num remainingUsers.length),
                               ("users", .arr (remainingUsers.map .obj))] }]))
  | _, _ => (st0, [])

/-- One inbound event, carrying the sending connection id and its server
arrival time where the handler reads the clock. -/
inductive Event where
  | joinRoom (sid : String) (now : Nat) (user : Option Obj) (roomId : String)
  | videoLoad (sid : String) (now : Nat) (d : VideoLoadData)
  | videoAction (sid : String) (now : Nat) (d : VideoActionData)
  | chatMessage (sid : String) (now : Nat) (roomId : String)
      (user : Option Obj) (message : String)
  | offer (sid roomId : String) (payload : JVal)
  | answer (sid roomId : String) (payload : JVal)
  | iceCandidate (sid roomId : String) (payload : JVal)
  | leaveRoom (sid userId roomId : String)
  | disconnect (sid : String)

/-- Dispatch one inbound event to its handler. -/
def step (st : ServerState) : Event → ServerState × List Output
  | .joinRoom sid now user roomId => handleJoinRoom st sid now user roomId
  | .videoLoad sid now d => handleVideoLoad st sid now d
  | .videoAction sid now d => handleVideoAction st sid now d
  | .chatMessage sid now roomId user message =>
      handleChatMessage st sid now roomId user message
  | .offer sid roomId payload => handleOffer st sid roomId payload
  | .answer sid roomId payload => handleAnswer st sid roomId payload
  | .iceCandidate sid roomId payload => handleIceCandidate st sid roomId payload
  | .leaveRoom sid userId roomId => handleLeaveRoom st sid userId roomId
  | .disconnect sid => handleDisconnect st sid

/-- Process a list of inbound events (the single-threaded event loop). -/
def run (st : ServerState) : List Event → ServerState
  | [] => st
  | e :: es => run (step st e).1 es

/-- The state at process start: all maps empty. -/
def initState : ServerState :=
  { rooms := [], roomVideoStates := [], roomUsers := [], sockets := [],
    channels := [] }

/-- The presence map of a room (empty when the room is not tracked). -/
def presenceOf (st : ServerState) (roomId : String) : List (String × Obj) :=
  (alist.get st.roomUsers roomId).getD []

/-- Whether a connection id is in a room's `PresenceSet`. -/
def inPresence (st : ServerState) (roomId sid : String) : Bool :=
  (alist.get (presenceOf st roomId) sid).isSome

/-- The matching-existence invariant: a `rooms` entry, a `roomVideoStates`
entry and a `roomUsers` entry for a given room id always exist together. -/
def existsMatch (st : ServerState) : Prop :=
  ∀ r : String,
    (alist.get st.rooms r).isSome = (alist.get st.roomVideoStates r).isSome ∧
    (alist.get st.roomVideoStates r).isSome = (alist.get st.roomUsers r).isSome

/-! ### Association-list lemmas -/

theorem alist.get_set {α : Type _} (m : List (String × α)) (k k' : String)
    (v : α) :
    alist.get (alist.set m k v) k' = if k = k' then some v else alist.get m k' := by
  induction m with
  | nil => simp [alist.set, alist.get]
  | cons p rest ih =>
      by_cases h1 : p.1 = k
      · by_cases h2 : k = k' <;> simp_all [alist.set, alist.get]
      · by_cases h2 : p.1 = k' <;> by_cases h3 : k = k' <;>
          simp_all [alist.set, alist.get]

theorem alist.get_set_self {α : Type _} (m : List (String × α)) (k : String)
    (v : α) : alist.get (alist.set m k v) k = some v := by
  simp [alist.get_set]

theorem alist.get_del {α : Type _} (m : List (String × α)) (k k' : String) :
    alist.get (alist.del m k) k' = if k = k' then none else alist.get m k' := by
  induction m with
  | nil => simp [alist.del, alist.get]
  | cons p rest ih =>
      by_cases h1 : p.1 = k
      · by_cases h2 : k = k' <;> simp_all [alist.del, alist.get]
      · by_cases h2 : p.1 = k' <;> by_cases h3 : k = k' <;>
          simp_all [alist.del, alist.get]

theorem alist.isSome_get_ensure {α : Type _} (m : List (String × α))
    (k : String) (v : α) (k' : String) :
    (alist.get (alist.ensure m k v) k').isSome
      = (decide (k = k') || (alist.get m k').isSome) := by
  unfold alist.ensure
  by_cases h : (alist.get m k).isSome
  · by_cases h2 : k = k'
    · subst h2; simp [h]
    · simp [h, h2]
  · by_cases h2 : k = k'
    · subst h2; simp [h, alist.get_set]
    · simp [h, h2, alist.get_set]

theorem alist.isSome_get_set_present {α : Type _} (m : List (String × α))
    (k : String) (v : α) (hp : (alist.get m k).isSome = true) (r : String) :
    (alist.get (alist.set m k v) r).isSome = (alist.get m r).isSome := by
  rw [alist.get_set]
  by_cases h : k = r
  · subst h; simp [hp]
  · simp [h]

theorem Obj.get_append_last (o : Obj) (k : String) (v : JVal) :
    Obj.get (o ++ [(k, v)]) k = v := by
  simp [Obj.get, List.reverse_append, Obj.getRev]

theorem not_mem_filter_bne (l : List String) (sid : String) :
    sid ∉ l.filter (fun m => m != sid) := by
  simp [List.mem_filter]

/-! ### Preservation of the matching-existence invariant -/

theorem existsMatch_of_eq_isSome (st st' : ServerState)
    (hr : ∀ r, (alist.get st'.rooms r).isSome = (alist.get st.rooms r).isSome)
    (hv : ∀ r, (alist.get st'.roomVideoStates r).isSome
                 = (alist.get st.roomVideoStates r).isSome)
    (hu : ∀ r, (alist.get st'.roomUsers r).isSome
                 = (alist.get st.roomUsers r).isSome)
    (h : existsMatch st) : existsMatch st' := by
  intro r
  rw [hr, hv, hu]
  exact h r

theorem existsMatch_initializeRoom (st : ServerState) (roomId : String)
    (now : Nat) (h : existsMatch st) :
    existsMatch (initializeRoom st roomId now) := by
  intro r
  simp only [initializeRoom, alist.isSome_get_ensure]
  exact ⟨by rw [(h r).1], by rw [(h r).2]⟩

theorem isSome_roomUsers_initializeRoom (st : ServerState) (roomId : String)
    (now : Nat) :
    (alist.get (initializeRoom st roomId now).roomUsers roomId).isSome = true := by
  simp [initializeRoom, alist.isSome_get_ensure]

theorem isSome_roomVideoStates_initializeRoom (st : ServerState)
    (roomId : String) (now : Nat) :
    (alist.get (initializeRoom st roomId now).roomVideoStates roomId).isSome
      = true := by
  simp [initializeRoom, alist.isSome_get_ensure]

theorem existsMatch_step (st : ServerState) (e : Event) (h : existsMatch st) :
    existsMatch (step st e).1 := by
  cases e with
  | joinRoom sid now user roomId =>
      simp only [step, handleJoinRoom]
      by_cases hv : user.isNone = true ∨ roomId = ""
      · simp only [if_pos hv]; exact h
      · simp only [if_neg hv]
        refine existsMatch_of_eq_isSome (initializeRoom st roomId now) _
          (fun r => rfl) (fun r => rfl) (fun r => ?_)
          (existsMatch_initializeRoom st roomId now h)
        exact alist.isSome_get_set_present _ _ _
          (isSome_roomUsers_initializeRoom st roomId now) r
  | videoLoad sid now d =>
      simp only [step, handleVideoLoad]
      by_cases hv : d.roomId = "" ∨ d.userId = "" ∨ d.type = ""
      · simp only [if_pos hv]; exact h
      · simp only [if_neg hv]
        refine existsMatch_of_eq_isSome (initializeRoom st d.roomId now) _
          (fun r => rfl) (fun r => ?_) (fun r => rfl)
          (existsMatch_initializeRoom st d.roomId now h)
        exact alist.isSome_get_set_present _ _ _
          (isSome_roomVideoStates_initializeRoom st d.roomId now) r
  | videoAction sid now d =>
      simp only [step, handleVideoAction]
      by_cases hv : d.roomId = "" ∨ d.userId = ""
      · simp only [if_pos hv]; exact h
      · simp only [if_neg hv]
        cases hm : alist.get st.roomVideoStates d.roomId with
        | none => exact h
        | some cs =>
            by_cases hd : debounced cs now
            · simp only [if_pos hd]; exact h
            · simp only [if_neg hd]
              refine existsMatch_of_eq_isSome st _
                (fun r => rfl) (fun r => ?_) (fun r => rfl) h
              exact alist.isSome_get_set_present _ _ _ (by simp [hm]) r
  | chatMessage sid now roomId user message =>
      simp only [step, handleChatMessage]
      by_cases hv : roomId = "" ∨ user.isNone = true ∨ message = ""
      · simp only [if_pos hv]; exact h
      · simp only [if_neg hv]; exact h
  | offer sid roomId payload => exact h
  | answer sid roomId payload => exact h
  | iceCandidate sid roomId payload => exact h
  | leaveRoom sid userId roomId =>
      simp only [step, handleLeaveRoom]
      by_cases hv : roomId = "" ∨ userId = ""
      · simp only [if_pos hv]; exact h
      · simp only [if_neg hv]
        cases hm : alist.get st.roomUsers roomId with
        | none =>
            exact existsMatch_of_eq_isSome st _
              (fun r => rfl) (fun r => rfl) (fun r => rfl) h
        | some users =>
            by_cases he : ((alist.del users sid).map Prod.snd).length = 0
            · simp only [if_pos he]
              intro r
              by_cases hr : roomId = r
              · simp [alist.get_del, hr]
              · simp [alist.get_del, hr, alist.get_set, (h r).1, (h r).2]
            · simp only [if_neg he]
              refine existsMatch_of_eq_isSome st _
                (fun r => rfl) (fun r => rfl) (fun r => ?_) h
              exact alist.isSome_get_set_present _ _ _ (by simp [hm]) r
  | disconnect sid =>
      simp only [step, handleDisconnect]
      split
      · split
        · exact existsMatch_of_eq_isSome st _
            (fun r => rfl) (fun r => rfl) (fun r => rfl) h
        · rename_i o1 o2 roomId user heq1 heq2 o3 users hm
          split
          · rename_i he
            intro r
            by_cases hr : roomId = r
            · simp [alist.get_del, hr]
            · simp [alist.get_del, hr, alist.get_set, (h r).1, (h r).2]
          · rename_i he
            refine existsMatch_of_eq_isSome st _
              (fun r => rfl) (fun r => rfl) (fun r => ?_) h
            exact alist.isSome_get_set_present _ _ _ (by simp [hm]) r
      · exact existsMatch_of_eq_isSome st _
          (fun r => rfl) (fun r => rfl) (fun r => rfl) h

theorem existsMatch_run (st : ServerState) (h : existsMatch st)
    (es : List Event) : existsMatch (run st es) := by
  induction es generalizing st with
  | nil => exact h
  | cons e es ih => exact ih (step st e).1 (existsMatch_step st e h)

theorem existsMatch_initState : existsMatch initState := by
  intro r
  simp [initState, alist.get]

theorem alist.get_ensure_ne {α : Type _} (m : List (String × α)) (k : String)
    (v : α) (k' : String) (h : k ≠ k') :
    alist.get (alist.ensure m k v) k' = alist.get m k' := by
  unfold alist.ensure
  split
  · rfl
  · rw [alist.get_set, if_neg h]

/-- C1, counterexample: a `video-load` naming a room no one has joined
creates the `Room` and the `VideoState` while the room's `PresenceSet` is
empty, so an empty presence set does not imply that `Room` and `VideoState`
are absent, and the load is an operation that leaves exactly that state. -/
theorem claim1_counterexample :
    alist.get (run initState
      [Event.videoLoad "s1" 1000
        { roomId := "r1", type := "youtube", videoId := .str "v",
          videoUrl := .undef, userId := "u1" }]).roomUsers "r1" = some [] ∧
    alist.get (run initState
      [Event.videoLoad "s1" 1000
        { roomId := "r1", type := "youtube", videoId := .str "v",
          videoUrl := .undef, userId := "u1" }]).rooms "r1"
      = some { id := "r1", createdAt := 1000, users := [] } ∧
    alist.get (run initState
      [Event.videoLoad "s1" 1000
        { roomId := "r1", type := "youtube", videoId := .str "v",
          videoUrl := .undef, userId := "u1" }]).roomVideoStates "r1"
      = some { type := some "youtube", videoId := .str "v", videoUrl := .undef,
               currentTime := .num 0, isPlaying := false,
               lastUpdated := some 1000, lastUpdatedBy := some "u1" } :=
  ⟨rfl, rfl, rfl⟩

/-- C1, amended: at every reachable state the three per-room structures have
matching existence — for every room id, the `rooms` entry, the
`roomVideoStates` entry and the `roomUsers` (presence) entry are present or
absent in lockstep, created together by `initializeRoom` and destroyed
together by the `leave-room`/`disconnect` cleanup, never partially.  The
original claim's stronger assertion, that an empty presence set implies the
`Room` and `VideoState` do not exist, is refuted by the counterexample. -/
theorem claim1_structures_exist_together (es : List Event) :
    existsMatch (run initState es) :=
  existsMatch_run initState existsMatch_initState es

/-- C5, counterexample: a connection that joins room "A" and then room "B"
is present in both rooms' presence sets at once, refuting the claim that a
connection id appears in at most one room's `PresenceSet`. -/
theorem claim5_counterexample :
    inPresence (run initState
      [Event.joinRoom "s1" 10 (some [("name", JVal.str "al")]) "A",
       Event.joinRoom "s1" 20 (some [("name", JVal.str "al")]) "B"]) "A" "s1"
      = true ∧
    inPresence (run initState
      [Event.joinRoom "s1" 10 (some [("name", JVal.str "al")]) "A",
       Event.joinRoom "s1" 20 (some [("name", JVal.str "al")]) "B"]) "B" "s1"
      = true :=
  ⟨rfl, rfl⟩

/-- C5, amended: `join-room` never removes a connection from a previously
joined room: if a connection is in room `A`'s presence set and then joins a
different room `B`, it is afterwards present in both `A`'s and `B`'s
presence sets. -/
theorem claim5_join_keeps_old_presence (st : ServerState) (sid : String)
    (now : Nat) (u : Obj) (A B : String) (hA : inPresence st A sid = true)
    (hAB : A ≠ B) (hB : B ≠ "") :
    inPresence ((handleJoinRoom st sid now (some u) B).1) A sid = true ∧
    inPresence ((handleJoinRoom st sid now (some u) B).1) B sid = true := by
  have hv : ¬((some u : Option Obj).isNone = true ∨ B = "") := by simp [hB]
  have hBA : ¬(B = A) := fun hh => hAB hh.symm
  constructor
  · simp only [handleJoinRoom, if_neg hv, inPresence, presenceOf, initializeRoom]
    rw [alist.get_set, if_neg hBA, alist.get_ensure_ne _ _ _ _ hBA]
    exact hA
  · simp only [handleJoinRoom, if_neg hv, inPresence, presenceOf]
    rw [alist.get_set_self]
    simp [alist.get_set_self]

/-- C5, witness: the amended statement at a concrete two-join trace. -/
theorem claim5_join_keeps_old_presence_witness :
    inPresence (run initState
      [Event.joinRoom "s1" 10 (some [("name", JVal.str "al")]) "A"]) "A" "s1"
      = true ∧
    ("A" : String) ≠ "B" ∧ ("B" : String) ≠ "" ∧
    (inPresence ((handleJoinRoom (run initState
        [Event.joinRoom "s1" 10 (some [("name", JVal.str "al")]) "A"])
        "s1" 20 (some [("name", JVal.str "al")]) "B").1) "A" "s1" = true ∧
     inPresence ((handleJoinRoom (run initState
        [Event.joinRoom "s1" 10 (some [("name", JVal.str "al")]) "A"])
        "s1" 20 (some [("name", JVal.str "al")]) "B").1) "B" "s1" = true) :=
  ⟨rfl, by decide, by decide,
   claim5_join_keeps_old_presence _ "s1" 20 [("name", JVal.str "al")] "A" "B"
     rfl (by decide) (by decide)⟩

/-- C8, confirmed: a transport disconnect for a connection with no recorded
`socket.data` (it never joined any room) emits nothing — no broadcast and no
error — and leaves the `rooms`, `roomVideoStates` and `roomUsers` maps
unchanged. -/
theorem claim8_disconnect_never_joined_noop (st : ServerState) (sid : String)
    (h : alist.get st.sockets sid = none) :
    (handleDisconnect st sid).2 = [] ∧
    (handleDisconnect st sid).1.rooms = st.rooms ∧
    (handleDisconnect st sid).1.roomVideoStates = st.roomVideoStates ∧
    (handleDisconnect st sid).1.roomUsers = st.roomUsers := by
  simp [handleDisconnect, h, Option.getD]

/-- C8, witness: the no-op disconnect at the initial state. -/
theorem claim8_witness :
    alist.get initState.sockets "s9" = none ∧
    ((handleDisconnect initState "s9").2 = [] ∧
     (handleDisconnect initState "s9").1.rooms = initState.rooms ∧
     (handleDisconnect initState "s9").1.roomVideoStates
       = initState.roomVideoStates ∧
     (handleDisconnect initState "s9").1.roomUsers = initState.roomUsers) :=
  ⟨rfl, claim8_disconnect_never_joined_noop initState "s9" rfl⟩

theorem handleVideoAction_accepted (st : ServerState) (sid : String)
    (now : Nat) (d : VideoActionData)
    (hv : ¬(d.roomId = "" ∨ d.userId = ""))
    (vs : VideoState) (hvs : alist.get st.roomVideoStates d.roomId = some vs)
    (hnd : debounced vs now = false) :
    handleVideoAction st sid now d
      = ({ st with
             roomVideoStates :=
               alist.set st.roomVideoStates d.roomId
                 { applyAction vs d.action d.time with
                   lastUpdated := some now, lastUpdatedBy := some d.userId } },
         [{ target := Target.roomOthers d.roomId, event := "video-action",
            payload := d.toObj ++ [("timestamp", JVal.num now)] }]) := by
  simp [handleVideoAction, hv, hvs, hnd]

theorem handleVideoAction_dropped (st : ServerState) (sid : String)
    (now : Nat) (d : VideoActionData)
    (hv : ¬(d.roomId = "" ∨ d.userId = ""))
    (vs : VideoState) (hvs : alist.get st.roomVideoStates d.roomId = some vs)
    (hd : debounced vs now = true) :
    handleVideoAction st sid now d = (st, []) := by
  simp [handleVideoAction, hv, hvs, hd]

theorem handleVideoLoad_accepted (st : ServerState) (sid : String)
    (now : Nat) (d : VideoLoadData)
    (hv : ¬(d.roomId = "" ∨ d.userId = "" ∨ d.type = "")) :
    handleVideoLoad st sid now d
      = ({ initializeRoom st d.roomId now with
             roomVideoStates :=
               alist.set (initializeRoom st d.roomId now).roomVideoStates
                 d.roomId
                 { type := some d.type, videoId := d.videoId,
                   videoUrl := d.videoUrl, currentTime := .num 0,
                   isPlaying := false, lastUpdated := some now,
                   lastUpdatedBy := some d.userId } },
         [{ target := .roomAll d.roomId, event := "video-load",
            payload := [("type", .str d.type), ("videoId", d.videoId),
                        ("videoUrl", d.videoUrl), ("userId", .str d.userId),
                        ("timestamp", .num now)] }]) := by
  simp [handleVideoLoad, hv]

/-- C3, counterexample: an accepted `play` action that supplies `time = 0`
does not set the position to `0` — `time || currentState.currentTime`
treats `0` as falsy, so the prior position `42` is kept, refuting the
claim's "for any supplied time, including 0". -/
theorem claim3_counterexample :
    (handleVideoAction (run initState
        [Event.videoLoad "s1" 1000
           { roomId := "r1", type := "youtube", videoId := .str "v",
             videoUrl := .undef, userId := "u1" },
         Event.videoAction "s1" 1400
           { roomId := "r1", action := "seek", time := .num 42,
             userId := "u1", extras := [] }])
       "s2" 1800
       { roomId := "r1", action := "play", time := .num 0, userId := "u2",
         extras := [] }).2
      = [{ target := Target.roomOthers "r1", event := "video-action",
           payload := [("roomId", JVal.str "r1"), ("action", JVal.str "play"),
                       ("time", JVal.num 0), ("userId", JVal.str "u2"),
                       ("timestamp", JVal.num 1800)] }] ∧
    alist.get (handleVideoAction (run initState
        [Event.videoLoad "s1" 1000
           { roomId := "r1", type := "youtube", videoId := .str "v",
             videoUrl := .undef, userId := "u1" },
         Event.videoAction "s1" 1400
           { roomId := "r1", action := "seek", time := .num 42,
             userId := "u1", extras := [] }])
       "s2" 1800
       { roomId := "r1", action := "play", time := .num 0, userId := "u2",
         extras := [] }).1.roomVideoStates "r1"
      = some { type := some "youtube", videoId := .str "v", videoUrl := .undef,
               currentTime := .num 42, isPlaying := true,
               lastUpdated := some 1800, lastUpdatedBy := some "u2" } :=
  ⟨rfl, rfl⟩

/-- C3, amended: for every accepted `play`/`pause` action, a truthy supplied
`time` (a non-zero number) becomes the new position, while a falsy `time`
(absent or `0`) keeps the prior position; the playing flag is set to `true`
for `play` and `false` for `pause` in both cases. -/
theorem claim3_play_pause_position (st : ServerState) (sid : String)
    (now : Nat) (d : VideoActionData)
    (hv : ¬(d.roomId = "" ∨ d.userId = ""))
    (vs : VideoState) (hvs : alist.get st.roomVideoStates d.roomId = some vs)
    (hnd : debounced vs now = false)
    (hact : d.action = "play" ∨ d.action = "pause") :
    ∃ vs2,
      alist.get (handleVideoAction st sid now d).1.roomVideoStates d.roomId
        = some vs2 ∧
      (d.time.truthy = true → vs2.currentTime = d.time) ∧
      (d.time.truthy = false → vs2.currentTime = vs.currentTime) ∧
      (d.action = "play" → vs2.isPlaying = true) ∧
      (d.action = "pause" → vs2.isPlaying = false) := by
  rw [handleVideoAction_accepted st sid now d hv vs hvs hnd]
  refine ⟨_, by rw [alist.get_set_self], ?_, ?_, ?_, ?_⟩ <;>
    rcases hact with hp | hp <;> simp_all [applyAction]

/-- C3, witness: the amended statement for a concrete accepted `play` with
`time = 7` after a load. -/
theorem claim3_play_pause_position_witness :
    ¬(("r1" : String) = "" ∨ ("u2" : String) = "") ∧
    alist.get (run initState
       [Event.videoLoad "s1" 1000
          { roomId := "r1", type := "youtube", videoId := .str "v",
            videoUrl := .undef, userId := "u1" }]).roomVideoStates "r1"
      = some { type := some "youtube", videoId := .str "v", videoUrl := .undef,
               currentTime := .num 0, isPlaying := false,
               lastUpdated := some 1000, lastUpdatedBy := some "u1" } ∧
    debounced { type := some "youtube", videoId := .str "v",
                videoUrl := .undef, currentTime := .num 0, isPlaying := false,
                lastUpdated := some 1000, lastUpdatedBy := some "u1" } 1400
      = false ∧
    (∃ vs2,
      alist.get (handleVideoAction (run initState
          [Event.videoLoad "s1" 1000
             { roomId := "r1", type := "youtube", videoId := .str "v",
               videoUrl := .undef, userId := "u1" }])
         "s2" 1400
         { roomId := "r1", action := "play", time := .num 7, userId := "u2",
           extras := [] }).1.roomVideoStates "r1" = some vs2 ∧
      ((JVal.num 7).truthy = true → vs2.currentTime = JVal.num 7) ∧
      ((JVal.num 7).truthy = false → vs2.currentTime = JVal.num 0) ∧
      (("play" : String) = "play" → vs2.isPlaying = true) ∧
      (("play" : String) = "pause" → vs2.isPlaying = false)) :=
  ⟨by decide, rfl, by decide,
   claim3_play_pause_position _ "s2" 1400
     { roomId := "r1", action := "play", time := .num 7, userId := "u2",
       extras := [] }
     (by decide)
     { type := some "youtube", videoId := .str "v", videoUrl := .undef,
       currentTime := .num 0, isPlaying := false,
       lastUpdated := some 1000, lastUpdatedBy := some "u1" }
     rfl (by decide) (Or.inl rfl)⟩

/-- C7, confirmed: every accepted `restart` action sets the room's position
to `0` and the playing flag to `true`, regardless of any supplied `time`
value (`d.time` is universally quantified and ignored by the `restart`
branch). -/
theorem claim7_restart (st : ServerState) (sid : String) (now : Nat)
    (d : VideoActionData) (hv : ¬(d.roomId = "" ∨ d.userId = ""))
    (vs : VideoState) (hvs : alist.get st.roomVideoStates d.roomId = some vs)
    (hnd : debounced vs now = false) (hact : d.action = "restart") :
    ∃ vs2,
      alist.get (handleVideoAction st sid now d).1.roomVideoStates d.roomId
        = some vs2 ∧
      vs2.currentTime = JVal.num 0 ∧ vs2.isPlaying = true := by
  rw [handleVideoAction_accepted st sid now d hv vs hvs hnd]
  refine ⟨_, by rw [alist.get_set_self], ?_, ?_⟩ <;> simp_all [applyAction]

/-- C7, witness: a concrete accepted `restart` carrying `time = 99` still
resets the position to `0` and sets playing. -/
theorem claim7_restart_witness :
    ¬(("r1" : String) = "" ∨ ("u2" : String) = "") ∧
    alist.get (run initState
       [Event.videoLoad "s1" 1000
          { roomId := "r1", type := "youtube", videoId := .str "v",
            videoUrl := .undef, userId := "u1" }]).roomVideoStates "r1"
      = some { type := some "youtube", videoId := .str "v", videoUrl := .undef,
               currentTime := .num 0, isPlaying := false,
               lastUpdated := some 1000, lastUpdatedBy := some "u1" } ∧
    debounced { type := some "youtube", videoId := .str "v",
                videoUrl := .undef, currentTime := .num 0, isPlaying := false,
                lastUpdated := some 1000, lastUpdatedBy := some "u1" } 1400
      = false ∧
    (∃ vs2,
      alist.get (handleVideoAction (run initState
          [Event.videoLoad "s1" 1000
             { roomId := "r1", type := "youtube", videoId := .str "v",
               videoUrl := .undef, userId := "u1" }])
         "s2" 1400
         { roomId := "r1", action := "restart", time := .num 99,
           userId := "u2", extras := [] }).1.roomVideoStates "r1" = some vs2 ∧
      vs2.currentTime = JVal.num 0 ∧ vs2.isPlaying = true) :=
  ⟨by decide, rfl, by decide,
   claim7_restart _ "s2" 1400
     { roomId := "r1", action := "restart", time := .num 99, userId := "u2",
       extras := [] }
     (by decide)
     { type := some "youtube", videoId := .str "v", videoUrl := .undef,
       currentTime := .num 0, isPlaying := false,
       lastUpdated := some 1000, lastUpdatedBy := some "u1" }
     rfl (by decide) rfl⟩

/-- C9, confirmed: a validated, non-debounced `video-action` whose `action`
is none of `play`/`pause`/`seek`/`restart` leaves `currentTime` and
`isPlaying` unchanged (the stored state is exactly the old one with only
`lastUpdated := now` and `lastUpdatedBy := userId` overwritten), still
broadcasts the event with a server timestamp to the other room members, and
sends no error to the sender (the single output targets the room minus the
sender). -/
theorem claim9_unknown_action (st : ServerState) (sid : String) (now : Nat)
    (d : VideoActionData) (hv : ¬(d.roomId = "" ∨ d.userId = ""))
    (vs : VideoState) (hvs : alist.get st.roomVideoStates d.roomId = some vs)
    (hnd : debounced vs now = false)
    (ha1 : d.action ≠ "play") (ha2 : d.action ≠ "pause")
    (ha3 : d.action ≠ "seek") (ha4 : d.action ≠ "restart") :
    alist.get (handleVideoAction st sid now d).1.roomVideoStates d.roomId
      = some { vs with lastUpdated := some now,
                       lastUpdatedBy := some d.userId } ∧
    (handleVideoAction st sid now d).2
      = [{ target := Target.roomOthers d.roomId, event := "video-action",
           payload := d.toObj ++ [("timestamp", JVal.num now)] }] ∧
    Obj.get (d.toObj ++ [("timestamp", JVal.num now)]) "timestamp"
      = JVal.num now := by
  rw [handleVideoAction_accepted st sid now d hv vs hvs hnd]
  refine ⟨?_, rfl, Obj.get_append_last _ _ _⟩
  rw [alist.get_set_self]
  simp [applyAction, ha1, ha2, ha3, ha4]

/-- C9, witness: a concrete unknown action `chapter-skip` after a load. -/
theorem claim9_unknown_action_witness :
    ¬(("r1" : String) = "" ∨ ("u2" : String) = "") ∧
    alist.get (run initState
       [Event.videoLoad "s1" 1000
          { roomId := "r1", type := "youtube", videoId := .str "v",
            videoUrl := .undef, userId := "u1" }]).roomVideoStates "r1"
      = some { type := some "youtube", videoId := .str "v", videoUrl := .undef,
               currentTime := .num 0, isPlaying := false,
               lastUpdated := some 1000, lastUpdatedBy := some "u1" } ∧
    debounced { type := some "youtube", videoId := .str "v",
                videoUrl := .undef, currentTime := .num 0, isPlaying := false,
                lastUpdated := some 1000, lastUpdatedBy := some "u1" } 1400
      = false ∧
    ("chapter-skip" : String) ≠ "play" ∧ ("chapter-skip" : String) ≠ "pause" ∧
    ("chapter-skip" : String) ≠ "seek" ∧ ("chapter-skip" : String) ≠ "restart" ∧
    (alist.get (handleVideoAction (run initState
        [Event.videoLoad "s1" 1000
           { roomId := "r1", type := "youtube", videoId := .str "v",
             videoUrl := .undef, userId := "u1" }])
       "s2" 1400
       { roomId := "r1", action := "chapter-skip", time := .num 5,
         userId := "u2", extras := [] }).1.roomVideoStates "r1"
      = some { type := some "youtube", videoId := .str "v", videoUrl := .undef,
               currentTime := .num 0, isPlaying := false,
               lastUpdated := some 1400, lastUpdatedBy := some "u2" } ∧
     (handleVideoAction (run initState
        [Event.videoLoad "s1" 1000
           { roomId := "r1", type := "youtube", videoId := .str "v",
             videoUrl := .undef, userId := "u1" }])
       "s2" 1400
       { roomId := "r1", action := "chapter-skip", time := .num 5,
         userId := "u2", extras := [] }).2
      = [{ target := Target.roomOthers "r1", event := "video-action",
           payload := VideoActionData.toObj
               { roomId := "r1", action := "chapter-skip", time := .num 5,
                 userId := "u2", extras := [] }
             ++ [("timestamp", JVal.num 1400)] }] ∧
     Obj.get (VideoActionData.toObj
         { roomId := "r1", action := "chapter-skip", time := .num 5,
           userId := "u2", extras := [] } ++ [("timestamp", JVal.num 1400)])
       "timestamp" = JVal.num 1400) :=
  ⟨by decide, rfl, by decide, by decide, by decide, by decide, by decide,
   claim9_unknown_action _ "s2" 1400
     { roomId := "r1", action := "chapter-skip", time := .num 5,
       userId := "u2", extras := [] }
     (by decide)
     { type := some "youtube", videoId := .str "v", videoUrl := .undef,
       currentTime := .num 0, isPlaying := false,
       lastUpdated := some 1000, lastUpdatedBy := some "u1" }
     rfl (by decide) (by decide) (by decide) (by decide) (by decide)⟩

/-- C2, counterexample: two valid `video-action` events for the same room
arriving 250ms apart (at 1100 and 1350) after a `video-load` at 1000: the
first falls inside the load's debounce window and is dropped (it mutates
nothing and is not broadcast), while the second — still less than 300ms
after the first — is applied and broadcast.  This refutes the claim that
among any two sub-300ms-apart actions only the first mutates and the second
is always dropped. -/
theorem claim2_counterexample :
    (handleVideoAction (run initState
        [Event.videoLoad "s1" 1000
           { roomId := "r1", type := "youtube", videoId := .str "v",
             videoUrl := .undef, userId := "u1" }])
       "s1" 1100
       { roomId := "r1", action := "seek", time := .num 50, userId := "u1",
         extras := [] })
      = (run initState
          [Event.videoLoad "s1" 1000
             { roomId := "r1", type := "youtube", videoId := .str "v",
               videoUrl := .undef, userId := "u1" }], []) ∧
    (handleVideoAction (run initState
        [Event.videoLoad "s1" 1000
           { roomId := "r1", type := "youtube", videoId := .str "v",
             videoUrl := .undef, userId := "u1" },
         Event.videoAction "s1" 1100
           { roomId := "r1", action := "seek", time := .num 50,
             userId := "u1", extras := [] }])
       "s2" 1350
       { roomId := "r1", action := "seek", time := .num 60, userId := "u2",
         extras := [] }).2
      = [{ target := Target.roomOthers "r1", event := "video-action",
           payload := [("roomId", JVal.str "r1"), ("action", JVal.str "seek"),
                       ("time", JVal.num 60), ("userId", JVal.str "u2"),
                       ("timestamp", JVal.num 1350)] }] ∧
    alist.get (handleVideoAction (run initState
        [Event.videoLoad "s1" 1000
           { roomId := "r1", type := "youtube", videoId := .str "v",
             videoUrl := .undef, userId := "u1" },
         Event.videoAction "s1" 1100
           { roomId := "r1", action := "seek", time := .num 50,
             userId := "u1", extras := [] }])
       "s2" 1350
       { roomId := "r1", action := "seek", time := .num 60, userId := "u2",
         extras := [] }).1.roomVideoStates "r1"
      = some { type := some "youtube", videoId := .str "v", videoUrl := .undef,
               currentTime := .num 60, isPlaying := false,
               lastUpdated := some 1350, lastUpdatedBy := some "u2" } :=
  ⟨rfl, rfl, rfl⟩

/-- C2, amended: for two validated `video-action` events for the same room
(with a `VideoState`), *provided the first is itself accepted* (the room is
not already inside a debounce window at its arrival) and arrival clocks are
positive, the first mutates the `VideoState` (applying its action and
stamping `lastUpdated`/`lastUpdatedBy`) and is broadcast to the other room
members, while the second, arriving less than 300ms later, is silently
dropped: the state is returned unchanged (no field, including `lastUpdated`
and `lastUpdatedBy`, is mutated) and no output — neither broadcast nor
error — is emitted. -/
theorem claim2_debounce_after_applied (st : ServerState) (sid1 sid2 : String)
    (t1 t2 : Nat) (d1 d2 : VideoActionData)
    (hv1 : ¬(d1.roomId = "" ∨ d1.userId = ""))
    (hv2 : ¬(d2.roomId = "" ∨ d2.userId = ""))
    (hroom : d2.roomId = d1.roomId)
    (vs : VideoState) (hvs : alist.get st.roomVideoStates d1.roomId = some vs)
    (hnd : debounced vs t1 = false) (ht1 : 0 < t1) (hlt : t2 - t1 < 300) :
    alist.get (handleVideoAction st sid1 t1 d1).1.roomVideoStates d1.roomId
      = some { applyAction vs d1.action d1.time with
               lastUpdated := some t1, lastUpdatedBy := some d1.userId } ∧
    (handleVideoAction st sid1 t1 d1).2
      = [{ target := Target.roomOthers d1.roomId, event := "video-action",
           payload := d1.toObj ++ [("timestamp", JVal.num t1)] }] ∧
    (handleVideoAction (handleVideoAction st sid1 t1 d1).1 sid2 t2 d2).1
      = (handleVideoAction st sid1 t1 d1).1 ∧
    (handleVideoAction (handleVideoAction st sid1 t1 d1).1 sid2 t2 d2).2
      = [] := by
  rw [handleVideoAction_accepted st sid1 t1 d1 hv1 vs hvs hnd]
  have hvs2 : alist.get (alist.set st.roomVideoStates d1.roomId
      ({ applyAction vs d1.action d1.time with
         lastUpdated := some t1, lastUpdatedBy := some d1.userId }))
      d2.roomId
      = some { applyAction vs d1.action d1.time with
               lastUpdated := some t1, lastUpdatedBy := some d1.userId } := by
    rw [hroom, alist.get_set_self]
  have hdb : debounced ({ applyAction vs d1.action d1.time with
      lastUpdated := some t1, lastUpdatedBy := some d1.userId }) t2 = true := by
    simp [debounced, Nat.pos_iff_ne_zero.mp ht1, hlt]
  rw [handleVideoAction_dropped _ sid2 t2 d2 hv2 _ hvs2 hdb]
  exact ⟨alist.get_set_self _ _ _, rfl, rfl, rfl⟩

/-- C2, witness: the amended statement at a concrete pair of seeks 200ms
apart after a load 400ms earlier. -/
theorem claim2_debounce_after_applied_witness :
    ¬(("r1" : String) = "" ∨ ("u1" : String) = "") ∧
    ¬(("r1" : String) = "" ∨ ("u2" : String) = "") ∧
    alist.get (run initState
       [Event.videoLoad "s1" 1000
          { roomId := "r1", type := "youtube", videoId := .str "v",
            videoUrl := .undef, userId := "u1" }]).roomVideoStates "r1"
      = some { type := some "youtube", videoId := .str "v", videoUrl := .undef,
               currentTime := .num 0, isPlaying := false,
               lastUpdated := some 1000, lastUpdatedBy := some "u1" } ∧
    debounced { type := some "youtube", videoId := .str "v",
                videoUrl := .undef, currentTime := .num 0, isPlaying := false,
                lastUpdated := some 1000, lastUpdatedBy := some "u1" } 1400
      = false ∧
    0 < 1400 ∧ 1600 - 1400 < 300 ∧
    (alist.get (handleVideoAction (run initState
        [Event.videoLoad "s1" 1000
           { roomId := "r1", type := "youtube", videoId := .str "v",
             videoUrl := .undef, userId := "u1" }])
       "sA" 1400
       { roomId := "r1", action := "seek", time := .num 50, userId := "u1",
         extras := [] }).1.roomVideoStates "r1"
      = some { applyAction
                 { type := some "youtube", videoId := .str "v",
                   videoUrl := .undef, currentTime := .num 0,
                   isPlaying := false, lastUpdated := some 1000,
                   lastUpdatedBy := some "u1" } "seek" (JVal.num 50) with
               lastUpdated := some 1400, lastUpdatedBy := some "u1" } ∧
     (handleVideoAction (run initState
        [Event.videoLoad "s1" 1000
           { roomId := "r1", type := "youtube", videoId := .str "v",
             videoUrl := .undef, userId := "u1" }])
       "sA" 1400
       { roomId := "r1", action := "seek", time := .num 50, userId := "u1",
         extras := [] }).2
      = [{ target := Target.roomOthers "r1", event := "video-action",
           payload := VideoActionData.toObj
               { roomId := "r1", action := "seek", time := .num 50,
                 userId := "u1", extras := [] }
             ++ [("timestamp", JVal.num 1400)] }] ∧
     (handleVideoAction (handleVideoAction (run initState
         [Event.videoLoad "s1" 1000
            { roomId := "r1", type := "youtube", videoId := .str "v",
              videoUrl := .undef, userId := "u1" }])
        "sA" 1400
        { roomId := "r1", action := "seek", time := .num 50, userId := "u1",
          extras := [] }).1
       "sB" 1600
       { roomId := "r1", action := "seek", time := .num 60, userId := "u2",
         extras := [] }).1
      = (handleVideoAction (run initState
          [Event.videoLoad "s1" 1000
             { roomId := "r1", type := "youtube", videoId := .str "v",
               videoUrl := .undef, userId := "u1" }])
         "sA" 1400
         { roomId := "r1", action := "seek", time := .num 50, userId := "u1",
           extras := [] }).1 ∧
     (handleVideoAction (handleVideoAction (run initState
         [Event.videoLoad "s1" 1000
            { roomId := "r1", type := "youtube", videoId := .str "v",
              videoUrl := .undef, userId := "u1" }])
        "sA" 1400
        { roomId := "r1", action := "seek", time := .num 50, userId := "u1",
          extras := [] }).1
       "sB" 1600
       { roomId := "r1", action := "seek", time := .num 60, userId := "u2",
         extras := [] }).2
      = []) :=
  ⟨by decide, by decide, rfl, by decide, by decide, by decide,
   claim2_debounce_after_applied _ "sA" "sB" 1400 1600
     { roomId := "r1", action := "seek", time := .num 50, userId := "u1",
       extras := [] }
     { roomId := "r1", action := "seek", time := .num 60, userId := "u2",
       extras := [] }
     (by decide) (by decide) rfl
     { type := some "youtube", videoId := .str "v", videoUrl := .undef,
       currentTime := .num 0, isPlaying := false,
       lastUpdated := some 1000, lastUpdatedBy := some "u1" }
     rfl (by decide) (by decide) (by decide)⟩

/-- C10, confirmed: a validated `video-load` stamps the room's
`lastUpdated` with its arrival time — unconditionally, for an arbitrary
prior state, which shows the load itself is never debounced — and any
validated `video-action` for the same room arriving less than 300ms later
is silently dropped: no mutation, no broadcast, no error.  (`0 < tL`
reflects that `Date.now()` is positive; the stored stamp must be truthy for
the JS debounce test to fire.) -/
theorem claim10_load_arms_debounce (st : ServerState) (sid1 sid2 : String)
    (tL tA : Nat) (dL : VideoLoadData) (dA : VideoActionData)
    (hvL : ¬(dL.roomId = "" ∨ dL.userId = "" ∨ dL.type = ""))
    (hvA : ¬(dA.roomId = "" ∨ dA.userId = ""))
    (hroom : dA.roomId = dL.roomId)
    (h0 : 0 < tL) (hlt : tA - tL < 300) :
    alist.get (handleVideoLoad st sid1 tL dL).1.roomVideoStates dL.roomId
      = some { type := some dL.type, videoId := dL.videoId,
               videoUrl := dL.videoUrl, currentTime := JVal.num 0,
               isPlaying := false, lastUpdated := some tL,
               lastUpdatedBy := some dL.userId } ∧
    (handleVideoAction (handleVideoLoad st sid1 tL dL).1 sid2 tA dA).1
      = (handleVideoLoad st sid1 tL dL).1 ∧
    (handleVideoAction (handleVideoLoad st sid1 tL dL).1 sid2 tA dA).2
      = [] := by
  rw [handleVideoLoad_accepted st sid1 tL dL hvL]
  have hvs2 : alist.get (alist.set
      (initializeRoom st dL.roomId tL).roomVideoStates dL.roomId
      ({ type := some dL.type, videoId := dL.videoId, videoUrl := dL.videoUrl,
         currentTime := JVal.num 0, isPlaying := false,
         lastUpdated := some tL, lastUpdatedBy := some dL.userId }))
      dA.roomId
      = some { type := some dL.type, videoId := dL.videoId,
               videoUrl := dL.videoUrl, currentTime := JVal.num 0,
               isPlaying := false, lastUpdated := some tL,
               lastUpdatedBy := some dL.userId } := by
    rw [hroom, alist.get_set_self]
  have hdb : debounced
      { type := some dL.type, videoId := dL.videoId,
        videoUrl := dL.videoUrl, currentTime := JVal.num 0,
        isPlaying := false, lastUpdated := some tL,
        lastUpdatedBy := some dL.userId } tA = true := by
    simp [debounced, Nat.pos_iff_ne_zero.mp h0, hlt]
  rw [handleVideoAction_dropped _ sid2 tA dA hvA _ hvs2 hdb]
  exact ⟨alist.get_set_self _ _ _, rfl, rfl⟩

/-- C10, witness: a concrete load at 1000 followed by a `play` at 1150. -/
theorem claim10_load_arms_debounce_witness :
    ¬(("r1" : String) = "" ∨ ("u1" : String) = "" ∨ ("youtube" : String) = "") ∧
    ¬(("r1" : String) = "" ∨ ("u2" : String) = "") ∧
    0 < 1000 ∧ 1150 - 1000 < 300 ∧
    (alist.get (handleVideoLoad initState "s1" 1000
        { roomId := "r1", type := "youtube", videoId := .str "v",
          videoUrl := .undef, userId := "u1" }).1.roomVideoStates "r1"
      = some { type := some "youtube", videoId := .str "v", videoUrl := .undef,
               currentTime := JVal.num 0, isPlaying := false,
               lastUpdated := some 1000, lastUpdatedBy := some "u1" } ∧
     (handleVideoAction (handleVideoLoad initState "s1" 1000
         { roomId := "r1", type := "youtube", videoId := .str "v",
           videoUrl := .undef, userId := "u1" }).1
        "s2" 1150
        { roomId := "r1", action := "play", time := .num 9, userId := "u2",
          extras := [] }).1
      = (handleVideoLoad initState "s1" 1000
          { roomId := "r1", type := "youtube", videoId := .str "v",
            videoUrl := .undef, userId := "u1" }).1 ∧
     (handleVideoAction (handleVideoLoad initState "s1" 1000
         { roomId := "r1", type := "youtube", videoId := .str "v",
           videoUrl := .undef, userId := "u1" }).1
        "s2" 1150
        { roomId := "r1", action := "play", time := .num 9, userId := "u2",
          extras := [] }).2
      = []) :=
  ⟨by decide, by decide, by decide, by decide,
   claim10_load_arms_debounce initState "s1" "s2" 1000 1150
     { roomId := "r1", type := "youtube", videoId := .str "v",
       videoUrl := .undef, userId := "u1" }
     { roomId := "r1", action := "play", time := .num 9, userId := "u2",
       extras := [] }
     (by decide) (by decide) rfl (by decide) (by decide)⟩

/-- C4, counterexample: a forwarded `offer` payload carries the sender's
connection id as `from` but has no `timestamp` field at all, refuting the
claim that every payload forwarded by the broadcast router carries a
server-assigned timestamp. -/
theorem claim4_counterexample :
    (handleOffer initState "s1" "r1" (JVal.str "sdp")).2
      = [{ target := Target.roomOthers "r1", event := "offer",
           payload := [("offer", JVal.str "sdp"), ("from", JVal.str "s1")] }] ∧
    Obj.hasField [("offer", JVal.str "sdp"), ("from", JVal.str "s1")]
      "timestamp" = false ∧
    Obj.get [("offer", JVal.str "sdp"), ("from", JVal.str "s1")] "from"
      = JVal.str "s1" :=
  ⟨rfl, rfl, rfl⟩

/-- C4, amended: the broadcast payloads of `video-load`, `video-action` and
`chat-message` carry a server-assigned `timestamp` equal to the arrival
time — for `video-action` this holds for arbitrary extra client-supplied
fields, so a client-supplied `timestamp` forwarded by the spread is always
overridden by the server's — while the forwarded signaling payloads
(`offer`, `answer`, `ice-candidate`) carry the sender's connection id as
`from` (and, per the counterexample, no timestamp). -/
theorem claim4_stamping (st : ServerState) (sid : String) (now : Nat)
    (dL : VideoLoadData)
    (hvL : ¬(dL.roomId = "" ∨ dL.userId = "" ∨ dL.type = ""))
    (dA : VideoActionData) (hvA : ¬(dA.roomId = "" ∨ dA.userId = ""))
    (vs : VideoState) (hvs : alist.get st.roomVideoStates dA.roomId = some vs)
    (hnd : debounced vs now = false)
    (rc : String) (uc : Obj) (mc : String) (hvC : ¬(rc = "" ∨ mc = ""))
    (sp : JVal) (rs : String) :
    (∀ o ∈ (handleVideoLoad st sid now dL).2,
       Obj.get o.payload "timestamp" = JVal.num now) ∧
    (∀ o ∈ (handleVideoAction st sid now dA).2,
       Obj.get o.payload "timestamp" = JVal.num now) ∧
    (∀ o ∈ (handleChatMessage st sid now rc (some uc) mc).2,
       Obj.get o.payload "timestamp" = JVal.num now) ∧
    (∀ o ∈ (handleOffer st sid rs sp).2,
       Obj.get o.payload "from" = JVal.str sid) ∧
    (∀ o ∈ (handleAnswer st sid rs sp).2,
       Obj.get o.payload "from" = JVal.str sid) ∧
    (∀ o ∈ (handleIceCandidate st sid rs sp).2,
       Obj.get o.payload "from" = JVal.str sid) := by
  have hC : ¬(rc = "" ∨ (some uc : Option Obj).isNone = true ∨ mc = "") := by
    simp only [Option.isNone_some]
    intro hh
    rcases hh with h1 | h2 | h3
    · exact hvC (Or.inl h1)
    · exact Bool.false_ne_true h2
    · exact hvC (Or.inr h3)
  refine ⟨?_, ?_, ?_, ?_, ?_, ?_⟩
  · rw [handleVideoLoad_accepted st sid now dL hvL]
    intro o ho
    rw [List.mem_singleton] at ho
    subst ho
    simp [Obj.get, Obj.getRev]
  · rw [handleVideoAction_accepted st sid now dA hvA vs hvs hnd]
    intro o ho
    rw [List.mem_singleton] at ho
    subst ho
    exact Obj.get_append_last _ _ _
  · simp only [handleChatMessage, if_neg hC]
    intro o ho
    rw [List.mem_singleton] at ho
    subst ho
    simp [Obj.get, Obj.getRev]
  · intro o ho
    rw [handleOffer, List.mem_singleton] at ho
    subst ho
    simp [Obj.get, Obj.getRev]
  · intro o ho
    rw [handleAnswer, List.mem_singleton] at ho
    subst ho
    simp [Obj.get, Obj.getRev]
  · intro o ho
    rw [handleIceCandidate, List.mem_singleton] at ho
    subst ho
    simp [Obj.get, Obj.getRev]

/-- C4, witness: concrete handler runs after a load, with the
`video-action` carrying a spoofed client `timestamp` of 9999 that the
server's 1400 overrides. -/
theorem claim4_stamping_witness :
    ¬(("r1" : String) = "" ∨ ("u1" : String) = "" ∨ ("youtube" : String) = "") ∧
    ¬(("r1" : String) = "" ∨ ("u2" : String) = "") ∧
    alist.get (handleVideoLoad initState "s1" 1000
        { roomId := "r1", type := "youtube", videoId := .str "v",
          videoUrl := .undef, userId := "u1" }).1.roomVideoStates "r1"
      = some { type := some "youtube", videoId := .str "v", videoUrl := .undef,
               currentTime := .num 0, isPlaying := false,
               lastUpdated := some 1000, lastUpdatedBy := some "u1" } ∧
    debounced { type := some "youtube", videoId := .str "v",
                videoUrl := .undef, currentTime := .num 0, isPlaying := false,
                lastUpdated := some 1000, lastUpdatedBy := some "u1" } 1400
      = false ∧
    ¬(("r1" : String) = "" ∨ ("hey" : String) = "") ∧
    ((∀ o ∈ (handleVideoLoad (handleVideoLoad initState "s1" 1000
          { roomId := "r1", type := "youtube", videoId := .str "v",
            videoUrl := .undef, userId := "u1" }).1 "s2" 1400
          { roomId := "r1", type := "youtube", videoId := .str "w",
            videoUrl := .undef, userId := "u2" }).2,
        Obj.get o.payload "timestamp" = JVal.num 1400) ∧
     (∀ o ∈ (handleVideoAction (handleVideoLoad initState "s1" 1000
          { roomId := "r1", type := "youtube", videoId := .str "v",
            videoUrl := .undef, userId := "u1" }).1 "s2" 1400
          { roomId := "r1", action := "seek", time := .num 8, userId := "u2",
            extras := [("timestamp", JVal.num 9999)] }).2,
        Obj.get o.payload "timestamp" = JVal.num 1400) ∧
     (∀ o ∈ (handleChatMessage (handleVideoLoad initState "s1" 1000
          { roomId := "r1", type := "youtube", videoId := .str "v",
            videoUrl := .undef, userId := "u1" }).1 "s2" 1400 "r1"
          (some [("name", JVal.str "bo")]) "hey").2,
        Obj.get o.payload "timestamp" = JVal.num 1400) ∧
     (∀ o ∈ (handleOffer (handleVideoLoad initState "s1" 1000
          { roomId := "r1", type := "youtube", videoId := .str "v",
            videoUrl := .undef, userId := "u1" }).1 "s2" "r1"
          (JVal.str "sdp")).2,
        Obj.get o.payload "from" = JVal.str "s2") ∧
     (∀ o ∈ (handleAnswer (handleVideoLoad initState "s1" 1000
          { roomId := "r1", type := "youtube", videoId := .str "v",
            videoUrl := .undef, userId := "u1" }).1 "s2" "r1"
          (JVal.str "sdp")).2,
        Obj.get o.payload "from" = JVal.str "s2") ∧
     (∀ o ∈ (handleIceCandidate (handleVideoLoad initState "s1" 1000
          { roomId := "r1", type := "youtube", videoId := .str "v",
            videoUrl := .undef, userId := "u1" }).1 "s2" "r1"
          (JVal.str "sdp")).2,
        Obj.get o.payload "from" = JVal.str "s2")) :=
  ⟨by decide, by decide, rfl, by decide, by decide,
   claim4_stamping (handleVideoLoad initState "s1" 1000
       { roomId := "r1", type := "youtube", videoId := .str "v",
         videoUrl := .undef, userId := "u1" }).1 "s2" 1400
     { roomId := "r1", type := "youtube", videoId := .str "w",
       videoUrl := .undef, userId := "u2" }
     (by decide)
     { roomId := "r1", action := "seek", time := .num 8, userId := "u2",
       extras := [("timestamp", JVal.num 9999)] }
     (by decide)
     { type := some "youtube", videoId := .str "v", videoUrl := .undef,
       currentTime := .num 0, isPlaying := false,
       lastUpdated := some 1000, lastUpdatedBy := some "u1" }
     rfl (by decide) "r1" [("name", JVal.str "bo")] "hey" (by decide)
     (JVal.str "sdp") "r1"⟩

/-- C6, confirmed: broadcast audiences per event kind.  A validated
`video-load` or `chat-message` is emitted with the room-wide target
(`io.to`), whose recipient set is exactly the room channel's full
membership — in particular the sender receives it whenever it is a member —
while validated/accepted `video-action` and the `offer`/`answer`/
`ice-candidate` forwards are emitted with the sender-excluding target
(`socket.to`), whose recipient set provably never contains the sender. -/
theorem claim6_broadcast_audiences (st : ServerState) (sid : String)
    (now : Nat) (dL : VideoLoadData)
    (hvL : ¬(dL.roomId = "" ∨ dL.userId = "" ∨ dL.type = ""))
    (dA : VideoActionData) (hvA : ¬(dA.roomId = "" ∨ dA.userId = ""))
    (vs : VideoState) (hvs : alist.get st.roomVideoStates dA.roomId = some vs)
    (hnd : debounced vs now = false)
    (rc : String) (uc : Obj) (mc : String) (hvC : ¬(rc = "" ∨ mc = ""))
    (sp : JVal) (rs : String) :
    ((handleVideoLoad st sid now dL).2.map Output.target
       = [Target.roomAll dL.roomId] ∧
     recipients (handleVideoLoad st sid now dL).1 sid
         (Target.roomAll dL.roomId)
       = channelMembers (handleVideoLoad st sid now dL).1 dL.roomId) ∧
    ((handleChatMessage st sid now rc (some uc) mc).2.map Output.target
       = [Target.roomAll rc] ∧
     recipients st sid (Target.roomAll rc) = channelMembers st rc) ∧
    ((handleVideoAction st sid now dA).2.map Output.target
       = [Target.roomOthers dA.roomId] ∧
     sid ∉ recipients (handleVideoAction st sid now dA).1 sid
             (Target.roomOthers dA.roomId)) ∧
    ((handleOffer st sid rs sp).2.map Output.target
       = [Target.roomOthers rs] ∧
     sid ∉ recipients (handleOffer st sid rs sp).1 sid
             (Target.roomOthers rs)) ∧
    ((handleAnswer st sid rs sp).2.map Output.target
       = [Target.roomOthers rs] ∧
     sid ∉ recipients (handleAnswer st sid rs sp).1 sid
             (Target.roomOthers rs)) ∧
    ((handleIceCandidate st sid rs sp).2.map Output.target
       = [Target.roomOthers rs] ∧
     sid ∉ recipients (handleIceCandidate st sid rs sp).1 sid
             (Target.roomOthers rs)) := by
  have hC : ¬(rc = "" ∨ (some uc : Option Obj).isNone = true ∨ mc = "") := by
    simp only [Option.isNone_some]
    intro hh
    rcases hh with h1 | h2 | h3
    · exact hvC (Or.inl h1)
    · exact Bool.false_ne_true h2
    · exact hvC (Or.inr h3)
  refine ⟨⟨?_, rfl⟩, ⟨?_, rfl⟩, ⟨?_, ?_⟩,
          ⟨rfl, not_mem_filter_bne _ _⟩, ⟨rfl, not_mem_filter_bne _ _⟩,
          ⟨rfl, not_mem_filter_bne _ _⟩⟩
  · rw [handleVideoLoad_accepted st sid now dL hvL]
    rfl
  · simp only [handleChatMessage, if_neg hC]
    rfl
  · rw [handleVideoAction_accepted st sid now dA hvA vs hvs hnd]
    rfl
  · exact not_mem_filter_bne _ _

/-- C6, witness: the audience statement at a concrete state where "s1" and
"s2" have joined room "r1". -/
theorem claim6_broadcast_audiences_witness :
    ¬(("r1" : String) = "" ∨ ("u1" : String) = "" ∨ ("youtube" : String) = "") ∧
    ¬(("r1" : String) = "" ∨ ("u2" : String) = "") ∧
    alist.get (run initState
        [Event.joinRoom "s1" 10 (some [("name", JVal.str "al")]) "r1",
         Event.joinRoom "s2" 11 (some [("name", JVal.str "bo")]) "r1"]).roomVideoStates
        "r1"
      = some { type := none, videoId := .null, videoUrl := .null,
               currentTime := .num 0, isPlaying := false,
               lastUpdated := none, lastUpdatedBy := none } ∧
    debounced { type := none, videoId := .null, videoUrl := .null,
                currentTime := .num 0, isPlaying := false,
                lastUpdated := none, lastUpdatedBy := none } 2000 = false ∧
    ¬(("r1" : String) = "" ∨ ("yo" : String) = "") ∧
    (((handleVideoLoad (run initState
          [Event.joinRoom "s1" 10 (some [("name", JVal.str "al")]) "r1",
           Event.joinRoom "s2" 11 (some [("name", JVal.str "bo")]) "r1"])
         "s1" 2000
         { roomId := "r1", type := "youtube", videoId := .str "v",
           videoUrl := .undef, userId := "u1" }).2.map Output.target
        = [Target.roomAll "r1"] ∧
      recipients (handleVideoLoad (run initState
          [Event.joinRoom "s1" 10 (some [("name", JVal.str "al")]) "r1",
           Event.joinRoom "s2" 11 (some [("name", JVal.str "bo")]) "r1"])
         "s1" 2000
         { roomId := "r1", type := "youtube", videoId := .str "v",
           videoUrl := .undef, userId := "u1" }).1 "s1" (Target.roomAll "r1")
        = channelMembers (handleVideoLoad (run initState
            [Event.joinRoom "s1" 10 (some [("name", JVal.str "al")]) "r1",
             Event.joinRoom "s2" 11 (some [("name", JVal.str "bo")]) "r1"])
           "s1" 2000
           { roomId := "r1", type := "youtube", videoId := .str "v",
             videoUrl := .undef, userId := "u1" }).1 "r1") ∧
     ((handleChatMessage (run initState
          [Event.joinRoom "s1" 10 (some [("name", JVal.str "al")]) "r1",
           Event.joinRoom "s2" 11 (some [("name", JVal.str "bo")]) "r1"])
         "s1" 2000 "r1" (some [("name", JVal.str "al")]) "yo").2.map
          Output.target
        = [Target.roomAll "r1"] ∧
      recipients (run initState
          [Event.joinRoom "s1" 10 (some [("name", JVal.str "al")]) "r1",
           Event.joinRoom "s2" 11 (some [("name", JVal.str "bo")]) "r1"])
         "s1" (Target.roomAll "r1")
        = channelMembers (run initState
            [Event.joinRoom "s1" 10 (some [("name", JVal.str "al")]) "r1",
             Event.joinRoom "s2" 11 (some [("name", JVal.str "bo")]) "r1"])
           "r1") ∧
     ((handleVideoAction (run initState
          [Event.joinRoom "s1" 10 (some [("name", JVal.str "al")]) "r1",
           Event.joinRoom "s2" 11 (some [("name", JVal.str "bo")]) "r1"])
         "s1" 2000
         { roomId := "r1", action := "seek", time := .num 3, userId := "u2",
           extras := [] }).2.map Output.target
        = [Target.roomOthers "r1"] ∧
      "s1" ∉ recipients (handleVideoAction (run initState
           [Event.joinRoom "s1" 10 (some [("name", JVal.str "al")]) "r1",
            Event.joinRoom "s2" 11 (some [("name", JVal.str "bo")]) "r1"])
          "s1" 2000
          { roomId := "r1", action := "seek", time := .num 3, userId := "u2",
            extras := [] }).1 "s1" (Target.roomOthers "r1")) ∧
     ((handleOffer (run initState
          [Event.joinRoom "s1" 10 (some [("name", JVal.str "al")]) "r1",
           Event.joinRoom "s2" 11 (some [("name", JVal.str "bo")]) "r1"])
         "s1" "r1" (JVal.str "sdp")).2.map Output.target
        = [Target.roomOthers "r1"] ∧
      "s1" ∉ recipients (handleOffer (run initState
           [Event.joinRoom "s1" 10 (some [("name", JVal.str "al")]) "r1",
            Event.joinRoom "s2" 11 (some [("name", JVal.str "bo")]) "r1"])
          "s1" "r1" (JVal.str "sdp")).1 "s1" (Target.roomOthers "r1")) ∧
     ((handleAnswer (run initState
          [Event.joinRoom "s1" 10 (some [("name", JVal.str "al")]) "r1",
           Event.joinRoom "s2" 11 (some [("name", JVal.str "bo")]) "r1"])
         "s1" "r1" (JVal.str "sdp")).2.map Output.target
        = [Target.roomOthers "r1"] ∧
      "s1" ∉ recipients (handleAnswer (run initState
           [Event.joinRoom "s1" 10 (some [("name", JVal.str "al")]) "r1",
            Event.joinRoom "s2" 11 (some [("name", JVal.str "bo")]) "r1"])
          "s1" "r1" (JVal.str "sdp")).1 "s1" (Target.roomOthers "r1")) ∧
     ((handleIceCandidate (run initState
          [Event.joinRoom "s1" 10 (some [("name", JVal.str "al")]) "r1",
           Event.joinRoom "s2" 11 (some [("name", JVal.str "bo")]) "r1"])
         "s1" "r1" (JVal.str "sdp")).2.map Output.target
        = [Target.roomOthers "r1"] ∧
      "s1" ∉ recipients (handleIceCandidate (run initState
           [Event.joinRoom "s1" 10 (some [("name", JVal.str "al")]) "r1",
            Event.joinRoom "s2" 11 (some [("name", JVal.str "bo")]) "r1"])
          "s1" "r1" (JVal.str "sdp")).1 "s1" (Target.roomOthers "r1"))) :=
  ⟨by decide, by decide, rfl, by decide, by decide,
   claim6_broadcast_audiences (run initState
       [Event.joinRoom "s1" 10 (some [("name", JVal.str "al")]) "r1",
        Event.joinRoom "s2" 11 (some [("name", JVal.str "bo")]) "r1"])
     "s1" 2000
     { roomId := "r1", type := "youtube", videoId := .str "v",
       videoUrl := .undef, userId := "u1" }
     (by decide)
     { roomId := "r1", action := "seek", time := .num 3, userId := "u2",
       extras := [] }
     (by decide)
     { type := none, videoId := .null, videoUrl := .null,
       currentTime := .num 0, isPlaying := false, lastUpdated := none,
       lastUpdatedBy := none }
     rfl (by decide) "r1" [("name", JVal.str "al")] "yo" (by decide)
     (JVal.str "sdp") "r1"⟩
